import Mathlib

/-!
Verification of the SPICE-RACS imaging pipeline core (`arrakis/imager.py`)
through a shallow embedding of its data model and operations.  Python dicts
are embedded as association lists in insertion order, the file system as a
list of existing paths, machine floats carrying frequencies, beam axes and
noise figures as rationals, and fallible code as `Except`.  External
collaborators (the `racs_tools` beam library, `astropy`, the wsclean engine,
the file system) enter as oracle parameters or, where a claim is about their
contracted behaviour, as definitions modelled from the specification and
marked as such.
-/

/-- ImageSet (imager.py): container organising the files related to the
imaging of one measurement set.  `prefix_str` embeds the source field named
like the Lean keyword for the path stem; `aux_lists` has Python default
`None`, embedded as `Option` with default `none`. -/
structure ImageSet where
  ms : String
  prefix_str : String
  image_lists : List (String × List String)
  aux_lists : Option (List ((String × String) × List String)) := none
deriving Repr, DecidableEq

/-- All polarization images of an ImageSet, flattened in dict iteration
order (the loop `for pol, image_list in image_set.image_lists.items()`). -/
def ImageSet.allImages (s : ImageSet) : List String :=
  (s.image_lists.map Prod.snd).flatten

/-- Python `os.remove`: removes the path from the file system, raising
`FileNotFoundError` when it is absent. -/
def osRemove (fs : List String) (p : String) : Except String (List String) :=
  if p ∈ fs then .ok (fs.erase p) else .error ("FileNotFoundError: " ++ p)

/-- First loop of `cleanup_imageset`: removes every polarization image in
turn; an exception from `os.remove` propagates, since this loop has no
handler. -/
def removeAll (fs : List String) : List String → Except String (List String)
  | [] => .ok fs
  | p :: ps =>
    match osRemove fs p with
    | .ok fs1 => removeAll fs1 ps
    | .error e => .error e

/-- Auxiliary loop of `cleanup_imageset`: each removal is wrapped in
`try ... except FileNotFoundError`, which logs the two error lines and
continues.  Returns the final file system and the accumulated warnings. -/
def removeAllCatch (fs : List String) (warns : List String) :
    List String → List String × List String
  | [] => (fs, warns)
  | p :: ps =>
    match osRemove fs p with
    | .ok fs1 => removeAllCatch fs1 warns ps
    | .error e => removeAllCatch fs (warns ++ [e]) ps

/-- cleanup_imageset (imager.py): with `purge` unset it only logs and
returns; otherwise every polarization image is removed (an absent file
raising `FileNotFoundError`), then, when `aux_lists` is truthyish (set and
nonempty), every auxiliary file is removed with `FileNotFoundError` caught
and logged as a warning.  The result carries the new file system and the
warnings, or the uncaught exception. -/
def cleanup_imageset (purge : Bool) (s : ImageSet) (fs : List String) :
    Except String (List String × List String) :=
  if purge = false then .ok (fs, [])
  else
    match removeAll fs s.allImages with
    | .error e => .error e
    | .ok fs1 =>
      match s.aux_lists with
      | none => .ok (fs1, [])
      | some aux =>
        if aux = [] then .ok (fs1, [])
        else .ok (removeAllCatch fs1 [] ((aux.map Prod.snd).flatten))

/-- Elliptical resolution descriptor (radio_beam.Beam): major axis, minor
axis, position angle. -/
structure Beam where
  major : ℚ
  minor : ℚ
  pa : ℚ
deriving Repr, DecidableEq

/-- Observable effects of `get_beam`: calling the external
`beamcon_2D.getmaxbeam`, and writing the pickled beam artifact. -/
inductive ReducerEffect where
  | computeMaxBeam (files : List String)
  | writePickle (path : String)
deriving Repr, DecidableEq

/-- Flattening loop of `get_beam`: every polarization image list of every
ImageSet, in iteration order — no sorting is applied. -/
def flattenImageSets (sets : List ImageSet) : List String :=
  (sets.map ImageSet.allImages).flatten

/-- The string `get_beam` feeds to `hashlib.md5(...)`:
`"".join(image_list)` over the flattened, unsorted image list. -/
def getBeamHashInput (sets : List ImageSet) : String :=
  String.join (flattenImageSets sets)

/-- Boolean strict order on characters by code point. -/
def charLtB (a b : Char) : Bool := decide (a.toNat < b.toNat)

/-- Lexicographic boolean strict order on character lists. -/
def charListLtB : List Char → List Char → Bool
  | [], [] => false
  | [], _ :: _ => true
  | _ :: _, [] => false
  | a :: as, b :: bs =>
    if charLtB a b then true
    else if charLtB b a then false
    else charListLtB as bs

/-- Boolean strict order on strings used only to build a canonical sorted
list for comparison with the spec wording. -/
def strLtB (a b : String) : Bool := charListLtB a.data b.data

/-- Insertion into a sorted list of strings. -/
def insertSorted (x : String) : List String → List String
  | [] => [x]
  | y :: ys => if strLtB x y then x :: y :: ys else y :: insertSorted x ys

/-- Insertion sort of a list of strings. -/
def sortStrings : List String → List String
  | [] => []
  | x :: xs => insertSorted x (sortStrings xs)

/-- What the specification's wording would hash: the fingerprint input over
the sorted list of file identities. -/
def specSortedHashInput (sets : List ImageSet) : String :=
  String.join (sortStrings (flattenImageSets sets))

/-- Pickle write with `open(path, "wb")`: overwrites the path in the
path-to-beam store. -/
def storeWrite (st : List (String × Beam)) (p : String) (b : Beam) :
    List (String × Beam) :=
  (p, b) :: st.filter (fun q => q.1 ≠ p)

/-- get_beam (imager.py), parametric in the hash (`hashlib.md5(...).hexdigest()`)
and in the external `racs_tools.beamcon_2D.getmaxbeam`: flattens the image
lists of all ImageSets, hashes their concatenation — only to name the output
pickle `beam_{hash}.pkl` — always calls `getmaxbeam`, and overwrites the
pickle.  The pre-existing store `st` is never read. -/
def get_beam (md5 : String → String) (getmaxbeam : List String → Beam)
    (sets : List ImageSet) (st : List (String × Beam)) :
    String × List (String × Beam) × List ReducerEffect :=
  let image_list := flattenImageSets sets
  let image_hash := md5 (String.join image_list)
  let common_beam := getmaxbeam image_list
  let pkl := "beam_" ++ image_hash ++ ".pkl"
  (pkl, storeWrite st pkl common_beam,
    [ReducerEffect.computeMaxBeam image_list, ReducerEffect.writePickle pkl])

/-- Modelled from the spec: `racs_tools.beamcon_2D.getmaxbeam` is not part of
this repository.  The spec says the reducer "computes the smallest ellipse
that dominates all of them (the maximum beam)"; the model takes the axis-wise
maximum of the input beams and the first input's position angle. -/
def getmaxbeamModel (beams : List Beam) : Beam :=
  { major := (beams.map Beam.major).foldr max 0
    minor := (beams.map Beam.minor).foldr max 0
    pa := (beams.headD ⟨0, 0, 0⟩).pa }

/-- smooth_images_in_imageset (imager.py): every polarization image is
smoothed to the common beam by the external `beamcon_2D.worker`, which
writes a `.conv.fits` sibling; the returned ImageSet lists the renamed
images (`image.replace(".fits", ".conv.fits")`).  The constructor call at
the end passes only `ms`, `prefix` and `image_lists`, so the NamedTuple
default `aux_lists = None` applies. -/
def smooth_images_in_imageset (s : ImageSet) : ImageSet :=
  { ms := s.ms
    prefix_str := s.prefix_str
    image_lists := s.image_lists.map
      (fun pi => (pi.1, pi.2.map (fun image => image.replace ".fits" ".conv.fits")))
    aux_lists := none }

/-- Outcome of homogenizing one image to the common beam. -/
inductive SmoothOutcome where
  | skipped (outBeam : Beam)
  | convolved (outBeam : Beam)
  | mismatch
deriving Repr, DecidableEq

/-- Beam `a` equals beam `b` within tolerance `t` on both axes. -/
def beamClose (t : ℚ) (a b : Beam) : Bool :=
  decide (|a.major - b.major| ≤ t) && decide (|a.minor - b.minor| ≤ t)

/-- Modelled from the spec: the per-image convolution step
`racs_tools.beamcon_2D.worker` is not part of this repository.  The spec's
numeric policy: convolution "must be skipped (image passed through
unchanged) when native resolution already equals CommonBeam within
tolerance, and must fail with BeamMismatchError if the CommonBeam is ...
smaller than the native beam along any axis (deconvolution is never
silently attempted)"; otherwise the image is convolved so that its output
beam is the CommonBeam. -/
def beamconWorkerModel (tol : ℚ) (native common : Beam) : SmoothOutcome :=
  if beamClose tol native common then .skipped native
  else if common.major < native.major ∨ common.minor < native.minor then .mismatch
  else .convolved common

/-- Consecutive differences, `np.diff`. -/
def diffs : List ℚ → List ℚ
  | [] => []
  | [_] => []
  | a :: b :: rest => (b - a) :: diffs (b :: rest)

/-- Arithmetic mean of a list of rationals. -/
def listMean (xs : List ℚ) : ℚ := xs.sum / xs.length

/-- Population variance, the square of `np.std` (default `ddof = 0`). -/
def listVar (xs : List ℚ) : ℚ :=
  (xs.map (fun x => (x - listMean xs) ^ 2)).sum / xs.length

/-- Spectral-axis regularity assertion of `make_cube`:
`assert np.diff(freqs).std() < 1e-6 * u.Hz`.  Since the standard deviation
and the tolerance are nonnegative, `std < 1e-6` holds exactly when the
variance is below `(1e-6)^2`, which keeps the model inside the rationals.
`np.std` of an empty array is NaN and `NaN < tol` is `False` in floating
point, so a frequency list with fewer than two entries fails the check. -/
def freqSpacingOk (freqs : List ℚ) : Bool :=
  match diffs freqs with
  | [] => false
  | ds => decide (listVar ds < (1 / 1000000) ^ 2)

/-- Raster axis `make_cube` takes for frequency: first index of "FREQ" in
the reversed `WCS.axis_type_names` of the first channel ("Reverse to match
index order"), with the initialiser `idx = 0` kept when no axis matches. -/
def freqAxisIdx (axisTypeNames : List String) : ℕ :=
  match (axisTypeNames.reverse).findIdx? (fun t => t == "FREQ") with
  | some j => j
  | none => 0

/-- Structural result of the cube-assembly loop of `make_cube`. -/
structure CubeResult where
  freqIdx : ℕ
  cubeShape : List ℕ
  copyAxis : ℕ
  planes : List (List ℚ)
  freqs : List ℚ
deriving Repr, DecidableEq

/-- Cube-assembly core of `make_cube` (imager.py): on the first channel the
frequency axis is determined from the coordinate metadata and the cube shape
is the plane shape with that axis resized to the channel count
(`cube_shape[idx] = len(image_list)`); every channel plane is scaled by the
fixed ASKAP convention (`plane = fits.getdata(image) / 2`) and stored by the
slot assignment `data_cube[:, chan] = plane`, whose slicing writes along the
literal raster axis 1; per-channel frequencies are recorded in order.  One
raw plane is passed per entry of the image list. -/
def makeCubeCore (axisTypeNames : List String) (planeShape : List ℕ)
    (rawPlanes : List (List ℚ)) (chanFreqs : List ℚ) : CubeResult :=
  let idx := freqAxisIdx axisTypeNames
  { freqIdx := idx
    cubeShape := planeShape.set idx rawPlanes.length
    copyAxis := 1
    planes := rawPlanes.map (fun p => p.map (fun x => x / 2))
    freqs := chanFreqs }

/-- Post-imaging divergence check of `image_beam` (after `pols += "I"`), one
MFS wideband image per polarization: the robust noise `mad_std(...)` of that
image is supplied by the oracle `rms`; a value above the fixed ceiling 1 is
only logged (`logger.error` — the raise in the source is commented out) and
the loop continues.  The returned list holds the polarizations warned
about; the `Except` layer records that no branch raises. -/
def rmsCheck (pols : List Char) (rms : Char → ℚ) : Except String (List Char) :=
  match pols with
  | [] => .ok []
  | p :: ps =>
    let warn := if 1 < rms p then [p] else []
    match rmsCheck ps rms with
    | .ok ws => .ok (warn ++ ws)
    | .error e => .error e

/-- Observable effects of `image_beam` past the reimage guard. -/
inductive ImagerEffect where
  | engineInvoke (pol : String)
  | imageSetBuilt (ms : String)
deriving Repr, DecidableEq

/-- Keyword defaults of `main` (imager.py) for the flags modelled here:
`reimage: bool = False`, `purge: bool = False`. -/
structure MainDefaults where
  reimage : Bool := false
  purge : Bool := false
deriving Repr, DecidableEq

/-- The defaults `main` applies when its caller passes neither flag. -/
def mainDefaults : MainDefaults := {}

/-- image_beam (imager.py): the reimage guard raises
`ValueError("The reimage option is not properly supported. ")`
unconditionally when `reimage` is false, before any wsclean command is
built or executed; otherwise wsclean runs once for Stokes I (when
requested) and once for the remaining joined polarizations
(`pols.replace("I", "")`), after which the ImageSet is assembled from
directory globs (oracles `glob` and `globAux`) over `pols` with "I"
re-appended. -/
def image_beam (reimage : Bool) (ms nm pols : String)
    (glob : String → List String) (globAux : String → String → List String) :
    Except String ImageSet × List ImagerEffect :=
  if reimage = false then
    (.error "The reimage option is not properly supported. ", [])
  else
    let doI := pols.contains 'I'
    let rest := (pols.toList.filter (fun c => c ≠ 'I')).asString
    let invokes :=
      (if doI then [ImagerEffect.engineInvoke "I"] else [])
        ++ [ImagerEffect.engineInvoke rest]
    let polsAll := rest.toList ++ (if doI then ['I'] else [])
    let s : ImageSet :=
      { ms := ms
        prefix_str := nm
        image_lists := polsAll.map (fun p => (String.singleton p, glob (String.singleton p)))
        aux_lists := some ((polsAll.map (fun p =>
          (["model", "psf", "residual", "dirty"].map (fun a =>
            ((String.singleton p, a), globAux (String.singleton p) a))))).flatten) }
    (.ok s, invokes ++ [ImagerEffect.imageSetBuilt ms])

/-- One delayed node of the task graph `main` builds. -/
inductive Node where
  | fixMs (ms : String)
  | imageBeam (ms : String) (reimage : Bool)
  | getBeam (joined : ℕ)
  | smooth (ms : String)
  | makeCube (ms : String) (pol : String)
  | cleanupNode (ms : String) (purge : Bool)
deriving Repr, DecidableEq

/-- Nodes `main` creates for one measurement set before the barrier: the
feed-centre fix and the wsclean imaging task. -/
def preBarrierNodes (ms : String) (reimage : Bool) : List Node :=
  [Node.fixMs ms, Node.imageBeam ms reimage]

/-- Nodes `main` creates for one ImageSet after the barrier: the smoothing
task, one cube task per Stokes parameter of "IQU", and the cleanup task. -/
def postBarrierNodes (ms : String) (purge : Bool) : List Node :=
  [Node.smooth ms, Node.makeCube ms "I", Node.makeCube ms "Q",
   Node.makeCube ms "U", Node.cleanupNode ms purge]

/-- Task graph `main` constructs after its assertion: per measurement set
the pre-barrier nodes, exactly one `get_beam` barrier joining all image
sets, then per measurement set the post-barrier nodes. -/
def mainGraph (mslist : List String) (reimage purge : Bool) : List Node :=
  (mslist.map (fun ms => preBarrierNodes ms reimage)).flatten
    ++ [Node.getBeam mslist.length]
    ++ (mslist.map (fun ms => postBarrierNodes ms purge)).flatten

/-- Recogniser for the barrier node. -/
def isGetBeam : Node → Bool
  | Node.getBeam _ => true
  | _ => false

/-- Number of Common-Resolution Reducer nodes in a task graph. -/
def countGetBeam (g : List Node) : ℕ := g.countP isGetBeam

/-- main (imager.py): `mslist = sorted(msdir.glob("scienceData*_averaged_cal.leakage.ms"))`
is given as the matching file list; then
`assert (len(mslist) > 0) & (len(mslist) == 36)` gates the construction of
the task graph. -/
def mainModel (mslist : List String) (reimage purge : Bool) :
    Except String (List Node) :=
  if (decide (0 < mslist.length) && (mslist.length == 36)) = true then
    .ok (mainGraph mslist reimage purge)
  else
    .error ("AssertionError: Incorrect number of MS files found: "
      ++ toString mslist.length ++ " / 36")

/-- Concrete ImageSet for the cleanup counterexample: one polarization
image and one auxiliary image. -/
def exSetC2 : ImageSet :=
  { ms := "beam00.ms"
    prefix_str := "image.beam00"
    image_lists := [("Q", ["image.beam00-0000-Q-image.fits"])]
    aux_lists := some [(("Q", "model"), ["image.beam00-0000-Q-model.fits"])] }

/-- Concrete ImageSet whose auxiliary file is missing while the
polarization image exists. -/
def exSetC2w : ImageSet :=
  { ms := "beam00.ms"
    prefix_str := "image.beam00"
    image_lists := [("Q", ["image.beam00-0000-Q-image.fits"])]
    aux_lists := some [(("Q", "model"), ["image.beam00-0000-Q-model.fits"])] }

/-- Concrete ImageSet list whose flattened image list is out of order. -/
def exSetsC1 : List ImageSet :=
  [{ ms := "beam00.ms"
     prefix_str := "image.beam00"
     image_lists := [("Q", ["b.fits", "a.fits"])] }]

/-- Concrete maximum-beam oracle for the reducer counterexample. -/
def exGetmaxbeam : List String → Beam := fun _ => ⟨2, 1, 0⟩

/-- Concrete ImageSet carrying auxiliary lists, for the homogenizer
counterexample. -/
def exSetC4 : ImageSet :=
  { ms := "beam01.ms"
    prefix_str := "image.beam01"
    image_lists := [("Q", ["image.beam01-0000-Q-image.fits"])]
    aux_lists := some [(("Q", "model"), ["image.beam01-0000-Q-model.fits"])] }

/- ------------------------------------------------------------------ -/
/- Theorems -/
/- ------------------------------------------------------------------ -/

/-- Helper: a member of a list is bounded by the fold of `max`. -/
theorem le_foldr_max {xs : List ℚ} {x : ℚ} (h : x ∈ xs) (a : ℚ) :
    x ≤ xs.foldr max a := by
  induction xs with
  | nil => cases h
  | cons y ys ih =>
    rcases List.mem_cons.mp h with rfl | h2
    · exact le_max_left _ _
    · exact le_trans (ih h2) (le_max_right _ _)

/-- Helper: the pre-barrier blocks contain no reducer node. -/
theorem countGetBeam_pre (l : List String) (reimage : Bool) :
    countGetBeam ((l.map (fun ms => preBarrierNodes ms reimage)).flatten) = 0 := by
  induction l with
  | nil => rfl
  | cons a as ih =>
    simpa [countGetBeam, preBarrierNodes, isGetBeam, List.countP_append,
      List.countP_cons] using ih

/-- Helper: the post-barrier blocks contain no reducer node. -/
theorem countGetBeam_post (l : List String) (purge : Bool) :
    countGetBeam ((l.map (fun ms => postBarrierNodes ms purge)).flatten) = 0 := by
  induction l with
  | nil => rfl
  | cons a as ih =>
    simpa [countGetBeam, postBarrierNodes, isGetBeam, List.countP_append,
      List.countP_cons] using ih

/-- Helper: setting an index below the length and reading it back. -/
theorem get_set_self {α : Type} (l : List α) (i : ℕ) (a : α)
    (h : i < l.length) : (l.set i a).get? i = some a := by
  induction l generalizing i with
  | nil => cases h
  | cons x xs ih =>
    cases i with
    | zero => rfl
    | succ n => exact ih n (Nat.lt_of_succ_lt_succ h)

/-- C1 counterexample: on a rerun over the unchanged input set — the pickle
from the first run already in the store — `get_beam`'s trace still contains
the `getmaxbeam` computation, so the artifact is recomputed rather than
returned from a cache; moreover the fingerprint input is the unsorted
flattened list, which differs from the sorted list the claim describes. -/
theorem get_beam_counterexample :
    (get_beam id exGetmaxbeam exSetsC1
        (get_beam id exGetmaxbeam exSetsC1 []).2.1).2.2 =
      [ReducerEffect.computeMaxBeam ["b.fits", "a.fits"],
       ReducerEffect.writePickle "beam_b.fitsa.fits.pkl"] ∧
    getBeamHashInput exSetsC1 = "b.fitsa.fits" ∧
    specSortedHashInput exSetsC1 = "a.fitsb.fits" ∧
    getBeamHashInput exSetsC1 ≠ specSortedHashInput exSetsC1 := by
  refine ⟨rfl, rfl, by decide, by decide⟩

/-- C1 (amended): `get_beam` computes its fingerprint over the concatenation
of the flattened, unsorted image list and uses it only to name the output
pickle; every invocation performs the `getmaxbeam` computation and rewrites
the pickle — no cache is consulted, the pre-existing store never read — while
the deterministic naming makes the artifact path identical across runs over
an unchanged input set. -/
theorem get_beam_always_recomputes (md5 : String → String)
    (getmaxbeam : List String → Beam) (sets : List ImageSet)
    (st st' : List (String × Beam)) :
    (get_beam md5 getmaxbeam sets st).2.2 =
      [ReducerEffect.computeMaxBeam (flattenImageSets sets),
       ReducerEffect.writePickle ("beam_" ++ md5 (getBeamHashInput sets) ++ ".pkl")] ∧
    (get_beam md5 getmaxbeam sets st).1 = (get_beam md5 getmaxbeam sets st').1 :=
  ⟨rfl, rfl⟩

/-- C2 counterexample: invoking `cleanup_imageset` with purge enabled on a
set whose polarization image is already absent raises `FileNotFoundError`
instead of completing with a warning. -/
theorem cleanup_imageset_missing_image_raises :
    cleanup_imageset true exSetC2 [] =
      .error "FileNotFoundError: image.beam00-0000-Q-image.fits" := by
  rfl

/-- C2 (amended): only the auxiliary-list removal catches
`FileNotFoundError`; whenever the polarization-image removal loop itself
succeeds, `cleanup_imageset` with purge enabled never raises — every missing
auxiliary file is reported as a warning only — but a missing file in a
polarization image list propagates as an exception. -/
theorem cleanup_imageset_aux_nonfatal (s : ImageSet) (fs fs1 : List String)
    (h : removeAll fs s.allImages = .ok fs1) :
    ∃ out, cleanup_imageset true s fs = .ok out := by
  unfold cleanup_imageset
  rw [if_neg (by simp)]
  rw [h]
  cases s.aux_lists with
  | none => exact ⟨_, rfl⟩
  | some aux =>
    show ∃ out,
      (if aux = [] then Except.ok (fs1, [])
        else Except.ok (removeAllCatch fs1 [] ((aux.map Prod.snd).flatten))) =
        Except.ok out
    by_cases ha : aux = []
    · rw [if_pos ha]
      exact ⟨_, rfl⟩
    · rw [if_neg ha]
      exact ⟨_, rfl⟩

/-- C2 witness: a concrete set whose image exists but whose auxiliary file
is missing is cleaned up without an exception. -/
theorem cleanup_imageset_aux_nonfatal_witness :
    ∃ out, cleanup_imageset true exSetC2w ["image.beam00-0000-Q-image.fits"] = .ok out :=
  cleanup_imageset_aux_nonfatal exSetC2w ["image.beam00-0000-Q-image.fits"] []
    (by rfl)

/-- C3 (code bug in the source): the evenly-spaced assertion of `make_cube`
REJECTS the degenerate single-channel cube — `np.diff` of one frequency is
empty, its standard deviation is NaN, and `NaN < 1e-6` is false, so the
assert fires although one channel is trivially evenly spaced — while it
accepts an evenly spaced multi-channel grid and rejects an irregular one. -/
theorem make_cube_single_channel_rejected :
    freqSpacingOk [(10 : ℚ)] = false ∧
    freqSpacingOk [(10 : ℚ), 11, 12] = true ∧
    freqSpacingOk [(10 : ℚ), 11, 13] = false := by
  refine ⟨rfl, ?_, ?_⟩ <;> norm_num [freqSpacingOk, diffs, listVar, listMean]

/-- C4 counterexample: the homogenized ImageSet of a set carrying auxiliary
lists has `aux_lists = none` — the auxiliary lists are not carried through
unchanged. -/
theorem smooth_images_drops_aux :
    (smooth_images_in_imageset exSetC4).aux_lists = none ∧
    exSetC4.aux_lists ≠ none :=
  ⟨rfl, by simp [exSetC4]⟩

/-- C4 (amended): `smooth_images_in_imageset` returns an ImageSet whose
polarization image lists reference the homogenized `.conv.fits` files and
whose `ms` and path stem are preserved, but whose auxiliary lists are
dropped: the returned NamedTuple is built without `aux_lists`, so the
default `None` applies for every auxiliary kind. -/
theorem smooth_images_imageset_fields (s : ImageSet) :
    (smooth_images_in_imageset s).image_lists =
      s.image_lists.map
        (fun pi => (pi.1, pi.2.map (fun image => image.replace ".fits" ".conv.fits"))) ∧
    (smooth_images_in_imageset s).aux_lists = none ∧
    (smooth_images_in_imageset s).ms = s.ms ∧
    (smooth_images_in_imageset s).prefix_str = s.prefix_str :=
  ⟨rfl, rfl, rfl, rfl⟩

/-- C5 (spec-modelled): policy of the homogenizing worker on one image —
when the native beam equals the common beam within tolerance the image is
passed through unchanged; when the common beam is smaller than the native
beam along any axis (and the beams are not within tolerance) the worker
fails with the beam mismatch error rather than deconvolve; and every
non-failing outcome carries an output beam equal to the common beam within
tolerance (exactly the common beam in the convolved case). -/
theorem homogenizer_policy (tol : ℚ) (native common : Beam) (ht : 0 ≤ tol) :
    (beamClose tol native common = true →
      beamconWorkerModel tol native common = .skipped native) ∧
    (beamClose tol native common = false →
      (common.major < native.major ∨ common.minor < native.minor) →
      beamconWorkerModel tol native common = .mismatch) ∧
    (∀ b, beamconWorkerModel tol native common = .convolved b → b = common) ∧
    (∀ b, beamconWorkerModel tol native common = .skipped b ∨
        beamconWorkerModel tol native common = .convolved b →
      beamClose tol b common = true) := by
  refine ⟨?_, ?_, ?_, ?_⟩
  · intro hc
    simp [beamconWorkerModel, hc]
  · intro hc hlt
    simp [beamconWorkerModel, hc, hlt]
  · intro b hb
    unfold beamconWorkerModel at hb
    by_cases hc : beamClose tol native common = true
    · rw [if_pos hc] at hb
      exact absurd hb (by simp)
    · rw [if_neg hc] at hb
      by_cases hlt : common.major < native.major ∨ common.minor < native.minor
      · rw [if_pos hlt] at hb
        exact absurd hb (by simp)
      · rw [if_neg hlt] at hb
        exact (SmoothOutcome.convolved.inj hb).symm
  · intro b hb
    unfold beamconWorkerModel at hb
    by_cases hc : beamClose tol native common = true
    · rw [if_pos hc] at hb
      rcases hb with hb | hb
      · rw [← SmoothOutcome.skipped.inj hb]
        exact hc
      · exact absurd hb (by simp)
    · rw [if_neg hc] at hb
      by_cases hlt : common.major < native.major ∨ common.minor < native.minor
      · rw [if_pos hlt] at hb
        rcases hb with hb | hb <;> exact absurd hb (by simp)
      · rw [if_neg hlt] at hb
        rcases hb with hb | hb
        · exact absurd hb (by simp)
        · rw [← SmoothOutcome.convolved.inj hb]
          have h0 : |common.major - common.major| ≤ tol := by
            simpa using ht
          have h1 : |common.minor - common.minor| ≤ tol := by
            simpa using ht
          simp [beamClose, h0, h1, ht]

/-- C5 witness: at tolerance 0 a native beam strictly larger than the
common beam on the major axis yields the mismatch failure. -/
theorem homogenizer_policy_witness :
    (beamClose 0 ⟨2, 1, 0⟩ ⟨1, 1, 0⟩ = true →
      beamconWorkerModel 0 ⟨2, 1, 0⟩ ⟨1, 1, 0⟩ = .skipped ⟨2, 1, 0⟩) ∧
    (beamClose 0 ⟨2, 1, 0⟩ ⟨1, 1, 0⟩ = false →
      ((1 : ℚ) < 2 ∨ (1 : ℚ) < 1) →
      beamconWorkerModel 0 ⟨2, 1, 0⟩ ⟨1, 1, 0⟩ = .mismatch) ∧
    (∀ b, beamconWorkerModel 0 ⟨2, 1, 0⟩ ⟨1, 1, 0⟩ = .convolved b → b = ⟨1, 1, 0⟩) ∧
    (∀ b, beamconWorkerModel 0 ⟨2, 1, 0⟩ ⟨1, 1, 0⟩ = .skipped b ∨
        beamconWorkerModel 0 ⟨2, 1, 0⟩ ⟨1, 1, 0⟩ = .convolved b →
      beamClose 0 b ⟨1, 1, 0⟩ = true) :=
  homogenizer_policy 0 ⟨2, 1, 0⟩ ⟨1, 1, 0⟩ (le_refl 0)

/-- C6 counterexample: with the frequency axis last in the coordinate
metadata, the determined raster axis is 0 while the slot assignment writes
along axis 1 — the channel is not copied along the determined axis. -/
theorem make_cube_copy_axis_mismatch :
    (makeCubeCore ["RA", "DEC", "STOKES", "FREQ"] [3, 1, 4, 4] [[0]] [1]).freqIdx = 0 ∧
    (makeCubeCore ["RA", "DEC", "STOKES", "FREQ"] [3, 1, 4, 4] [[0]] [1]).copyAxis = 1 ∧
    (makeCubeCore ["RA", "DEC", "STOKES", "FREQ"] [3, 1, 4, 4] [[0]] [1]).copyAxis ≠
      (makeCubeCore ["RA", "DEC", "STOKES", "FREQ"] [3, 1, 4, 4] [[0]] [1]).freqIdx := by
  decide

/-- C6 (amended): `make_cube` determines the frequency axis from the first
channel's coordinate metadata and sizes the cube along that axis to the
channel count, applies the fixed divide-by-two unit scaling to every plane,
but copies each channel into a slot along the literal raster axis 1
regardless of the determined axis; for the standard wsclean axis order
(frequency second from last) the determined axis is exactly 1, where the
two coincide. -/
theorem make_cube_axis_scaling (axisTypeNames : List String)
    (planeShape : List ℕ) (rawPlanes : List (List ℚ)) (chanFreqs : List ℚ)
    (h : freqAxisIdx axisTypeNames < planeShape.length) :
    ((makeCubeCore axisTypeNames planeShape rawPlanes chanFreqs).cubeShape).get?
        (freqAxisIdx axisTypeNames) = some rawPlanes.length ∧
    (makeCubeCore axisTypeNames planeShape rawPlanes chanFreqs).copyAxis = 1 ∧
    (makeCubeCore axisTypeNames planeShape rawPlanes chanFreqs).planes =
      rawPlanes.map (fun p => p.map (fun x => x / 2)) ∧
    freqAxisIdx ["RA", "DEC", "FREQ", "STOKES"] = 1 := by
  refine ⟨?_, rfl, rfl, by decide⟩
  exact get_set_self planeShape (freqAxisIdx axisTypeNames) rawPlanes.length h

/-- C6 witness: the amended statement at the standard wsclean header with a
4-axis plane and one channel. -/
theorem make_cube_axis_scaling_witness :
    ((makeCubeCore ["RA", "DEC", "FREQ", "STOKES"] [1, 2, 4, 4] [[6]] [3]).cubeShape).get?
        (freqAxisIdx ["RA", "DEC", "FREQ", "STOKES"]) = some 1 ∧
    (makeCubeCore ["RA", "DEC", "FREQ", "STOKES"] [1, 2, 4, 4] [[6]] [3]).copyAxis = 1 ∧
    (makeCubeCore ["RA", "DEC", "FREQ", "STOKES"] [1, 2, 4, 4] [[6]] [3]).planes =
      [[6]].map (fun p => p.map (fun x => x / 2)) ∧
    freqAxisIdx ["RA", "DEC", "FREQ", "STOKES"] = 1 :=
  make_cube_axis_scaling ["RA", "DEC", "FREQ", "STOKES"] [1, 2, 4, 4] [[6]] [3]
    (by decide)

/-- C7 (spec-modelled for the external maximum-beam computation): the common
beam dominates every input beam on both axes, and the task graph `main`
builds contains exactly one Common-Resolution Reducer node, so the beam is
computed once per run and the artifact has no other writer. -/
theorem common_beam_dominates (beams : List Beam) (b : Beam) (hb : b ∈ beams)
    (mslist : List String) (reimage purge : Bool) :
    b.major ≤ (getmaxbeamModel beams).major ∧
    b.minor ≤ (getmaxbeamModel beams).minor ∧
    countGetBeam (mainGraph mslist reimage purge) = 1 := by
  refine ⟨?_, ?_, ?_⟩
  · exact le_foldr_max (List.mem_map_of_mem Beam.major hb) 0
  · exact le_foldr_max (List.mem_map_of_mem Beam.minor hb) 0
  · unfold mainGraph countGetBeam
    rw [List.countP_append, List.countP_append]
    have h1 := countGetBeam_pre mslist reimage
    have h2 := countGetBeam_post mslist purge
    unfold countGetBeam at h1 h2
    rw [h1, h2]
    rfl

/-- C7 witness: domination and single-reducer structure at a concrete pair
of beams and a one-element measurement-set list. -/
theorem common_beam_dominates_witness :
    (⟨1, 1, 0⟩ : Beam).major ≤ (getmaxbeamModel [⟨1, 1, 0⟩, ⟨2, 1, 0⟩]).major ∧
    (⟨1, 1, 0⟩ : Beam).minor ≤ (getmaxbeamModel [⟨1, 1, 0⟩, ⟨2, 1, 0⟩]).minor ∧
    countGetBeam (mainGraph ["a.ms"] false false) = 1 :=
  common_beam_dominates [⟨1, 1, 0⟩, ⟨2, 1, 0⟩] ⟨1, 1, 0⟩ (by decide)
    ["a.ms"] false false

/-- C8: the post-imaging noise check of `image_beam` never raises — for any
polarization list and any robust-noise values it returns normally, warning
exactly about the polarizations whose MFS-image noise exceeds the fixed
ceiling 1; the imaging unit is never rejected on this condition. -/
theorem image_beam_rms_check_nonfatal (pols : List Char) (rms : Char → ℚ) :
    rmsCheck pols rms = .ok (pols.filter (fun p => decide (1 < rms p))) := by
  induction pols with
  | nil => rfl
  | cons p ps ih =>
    unfold rmsCheck
    rw [ih]
    by_cases h : 1 < rms p <;> simp [h, List.filter_cons]

/-- C9: with `reimage = false` — the default `main` passes — `image_beam`
raises `ValueError` before any imaging-engine invocation and before building
an ImageSet: the result is the error and the effect trace is empty, so the
skip-if-images-already-exist path is unreachable. -/
theorem image_beam_reimage_false_raises (ms nm pols : String)
    (glob : String → List String) (globAux : String → String → List String) :
    image_beam mainDefaults.reimage ms nm pols glob globAux =
      (.error "The reimage option is not properly supported. ", []) ∧
    mainDefaults.reimage = false :=
  ⟨rfl, rfl⟩

/-- C10: `main` proceeds past its assertion to build the task graph exactly
when the measurement-set directory holds exactly 36 matching files; for any
other count the assertion fails. -/
theorem main_requires_36_ms (mslist : List String) (reimage purge : Bool) :
    (∃ g, mainModel mslist reimage purge = .ok g) ↔ mslist.length = 36 := by
  unfold mainModel
  by_cases h : mslist.length = 36
  · simp [h]
  · have hb : (mslist.length == 36) = false := by
      simpa using h
    simp [hb, h]
